import Mathlib

/-!
Verification of the batch-processing core of the gpt-oss-20b batch runner
(`batch_processor.py`), as a shallow embedding.  Time values are rationals
(standing in for the Python floats that `time.monotonic()` returns); the
rate limiter's lock makes `acquire` atomic, so a sequence of acquires is
modelled as sequential state passing.
-/

namespace BatchProcessor

/-- `DEFAULT_MAX_RPM` from `batch_processor.py`. -/
def DEFAULT_MAX_RPM : Int := 300

/-- The fields of the `RateLimiter` class: `max_rpm`, `interval`
(`60.0 / max_rpm`) and the shared `_next_slot` value. -/
structure RateLimiter where
  max_rpm : Int
  interval : ℚ
  next_slot : ℚ
deriving DecidableEq

/-- `RateLimiter.__init__`: sets `interval = 60.0 / max_rpm` (raising
`ZeroDivisionError` when `max_rpm = 0`) and `_next_slot = 0.0`.  No other
validation is performed. -/
def RateLimiter.init (max_rpm : Int) : Except String RateLimiter :=
  if max_rpm = 0 then
    Except.error "ZeroDivisionError: float division by zero"
  else
    Except.ok { max_rpm := max_rpm, interval := 60 / (max_rpm : ℚ), next_slot := 0 }

/-- What one call to `RateLimiter.acquire` computes: the wait time, whether
the caller sleeps (`if wait_time > 0: time.sleep(wait_time)`), and the
updated limiter state. -/
structure AcquireResult where
  wait : ℚ
  sleeps : Bool
  state : RateLimiter
deriving DecidableEq

/-- `RateLimiter.acquire` at monotonic time `now`:
`wait_time = max(0.0, next_slot - now)`;
`next_slot = max(now, next_slot) + interval`; the sleep happens after the
lock is released and only when `wait_time > 0`. -/
def RateLimiter.acquire (rl : RateLimiter) (now : ℚ) : AcquireResult :=
  let wait_time := max 0 (rl.next_slot - now)
  { wait := wait_time
    sleeps := decide (0 < wait_time)
    state := { rl with next_slot := max now rl.next_slot + rl.interval } }

/-- The admitted slot of an `acquire` call: the time at which the caller
proceeds, i.e. `now` plus the computed wait. -/
def RateLimiter.slotAt (rl : RateLimiter) (now : ℚ) : ℚ :=
  now + (rl.acquire now).wait

/-- The admitted slots of a sequence of `acquire` calls, in admission order,
given the monotonic-clock reading observed by each call. -/
def slotTrace (rl : RateLimiter) : List ℚ → List ℚ
  | [] => []
  | now :: rest => rl.slotAt now :: slotTrace (rl.acquire now).state rest

/-- The successive values taken by `_next_slot` over a sequence of
`acquire` calls. -/
def nextSlotTrace (rl : RateLimiter) : List ℚ → List ℚ
  | [] => []
  | now :: rest =>
    (rl.acquire now).state.next_slot :: nextSlotTrace (rl.acquire now).state rest

theorem acquire_interval_eq (rl : RateLimiter) (now : ℚ) :
    (rl.acquire now).state.interval = rl.interval := rfl

theorem acquire_next_slot_eq (rl : RateLimiter) (now : ℚ) :
    (rl.acquire now).state.next_slot = max now rl.next_slot + rl.interval := rfl

theorem slotAt_eq (rl : RateLimiter) (now : ℚ) :
    rl.slotAt now = max now rl.next_slot := by
  unfold RateLimiter.slotAt RateLimiter.acquire
  rcases le_total rl.next_slot now with h | h
  · rw [max_eq_left (sub_nonpos.mpr h), max_eq_left h]; ring
  · rw [max_eq_right (sub_nonneg.mpr h), max_eq_right h]; ring

theorem next_slot_le_acquire (rl : RateLimiter) (now : ℚ) (h : 0 ≤ rl.interval) :
    rl.next_slot ≤ (rl.acquire now).state.next_slot := by
  rw [acquire_next_slot_eq]
  have := le_max_right now rl.next_slot
  linarith

theorem slotTrace_head_ge (rl : RateLimiter) (nows : List ℚ) :
    ∀ t ∈ (slotTrace rl nows).head?, rl.next_slot ≤ t := by
  cases nows with
  | nil => simp [slotTrace]
  | cons now rest =>
    intro t ht
    simp [slotTrace] at ht
    rw [← ht, slotAt_eq]
    exact le_max_right _ _

theorem slotTrace_chain (i : ℚ) (nows : List ℚ) :
    ∀ rl : RateLimiter, rl.interval = i →
      List.Chain' (fun t1 t2 => t1 + i ≤ t2) (slotTrace rl nows) := by
  induction nows with
  | nil => intro rl _; simp [slotTrace]
  | cons now rest ih =>
    intro rl hrl
    rw [slotTrace, List.chain'_cons']
    refine ⟨fun t ht => ?_, ih (rl.acquire now).state (by rw [acquire_interval_eq, hrl])⟩
    have h1 := slotTrace_head_ge (rl.acquire now).state rest t ht
    rw [acquire_next_slot_eq, hrl] at h1
    rw [slotAt_eq]
    linarith

theorem nextSlotTrace_chain (i : ℚ) (hi : 0 ≤ i) (nows : List ℚ) :
    ∀ rl : RateLimiter, rl.interval = i →
      List.Chain' (fun a b => a ≤ b) (rl.next_slot :: nextSlotTrace rl nows) := by
  induction nows with
  | nil => intro rl _; simp [nextSlotTrace]
  | cons now rest ih =>
    intro rl hrl
    rw [nextSlotTrace, List.chain'_cons]
    exact ⟨next_slot_le_acquire rl now (hrl ▸ hi),
      ih (rl.acquire now).state (by rw [acquire_interval_eq, hrl])⟩

/-- C1: each `acquire` computes `wait = max(0, next_slot - now)` and updates
`next_slot` to `max(now, next_slot) + interval`; on a fresh limiter
(`next_slot = 0`, no contention) the first call at a monotonic (hence
non-negative) time computes `wait = 0` and does not sleep. -/
theorem acquire_spec (rl : RateLimiter) (now : ℚ) (hnow : 0 ≤ now) :
    (rl.acquire now).wait = max 0 (rl.next_slot - now) ∧
    (rl.acquire now).state.next_slot = max now rl.next_slot + rl.interval ∧
    (rl.next_slot = 0 →
      (rl.acquire now).wait = 0 ∧ (rl.acquire now).sleeps = false) := by
  refine ⟨rfl, rfl, fun hfresh => ?_⟩
  have hw : (rl.acquire now).wait = 0 := by
    show max 0 (rl.next_slot - now) = 0
    rw [hfresh, zero_sub, max_eq_left (neg_nonpos.mpr hnow)]
  refine ⟨hw, ?_⟩
  have hs : (rl.acquire now).sleeps = decide (0 < (rl.acquire now).wait) := rfl
  rw [hs, hw]
  simp

/-- Witness for C1 at a concrete fresh limiter and time. -/
theorem acquire_spec_witness :
    ((RateLimiter.mk 300 (1/5) 0).acquire 7).wait = 0 ∧
    ((RateLimiter.mk 300 (1/5) 0).acquire 7).sleeps = false :=
  (acquire_spec (RateLimiter.mk 300 (1/5) 0) 7 (by norm_num)).2.2 rfl

/-- C2: for a limiter constructed with `max_rpm > 0`, `next_slot` is
non-decreasing across any sequence of `acquire` calls, and consecutive
admitted slots are at least `interval` apart. -/
theorem rate_limiter_invariant (m : Int) (hm : 0 < m) (rl : RateLimiter)
    (hinit : RateLimiter.init m = Except.ok rl) (nows : List ℚ) :
    List.Chain' (fun a b => a ≤ b) (rl.next_slot :: nextSlotTrace rl nows) ∧
    List.Chain' (fun t1 t2 => t1 + rl.interval ≤ t2) (slotTrace rl nows) := by
  have hne : m ≠ 0 := ne_of_gt hm
  have hrl : rl.interval = 60 / (m : ℚ) := by
    rw [RateLimiter.init, if_neg hne] at hinit
    cases hinit
    rfl
  have hi : 0 ≤ rl.interval := by
    rw [hrl]
    have hmq : (0 : ℚ) < (m : ℚ) := by exact_mod_cast hm
    positivity
  exact ⟨nextSlotTrace_chain rl.interval hi nows rl rfl,
    slotTrace_chain rl.interval nows rl rfl⟩

/-- Witness for C2 at `max_rpm = 2` (interval 30) and two acquire calls. -/
theorem rate_limiter_invariant_witness :
    List.Chain' (fun a b => a ≤ b)
      ((RateLimiter.mk 2 30 0).next_slot ::
        nextSlotTrace (RateLimiter.mk 2 30 0) [0, 1]) ∧
    List.Chain' (fun t1 t2 => t1 + (RateLimiter.mk 2 30 0).interval ≤ t2)
      (slotTrace (RateLimiter.mk 2 30 0) [0, 1]) :=
  rate_limiter_invariant 2 (by norm_num) (RateLimiter.mk 2 30 0)
    (by rw [RateLimiter.init, if_neg (by norm_num)]; norm_num) [0, 1]

/-- A path relative to the input root, decomposed the way `process_file`
uses it: `relative_path.parent` (directory components), `input_filepath.stem`
and the extension (so the file name is `stem ++ ext`). -/
structure RelPath where
  parent : List String
  stem : String
  ext : String
deriving DecidableEq

/-- The file name of a relative path, `stem` plus extension. -/
def RelPath.fileName (p : RelPath) : String := p.stem ++ p.ext

/-- How Python prints the relative path in log lines (``/``-separated). -/
def RelPath.display (p : RelPath) : String :=
  String.intercalate "/" (p.parent ++ [p.fileName])

/-- `raw_path = batch_config.raw_dir / relative_path.parent / f"{filename}.txt"`
with `filename = input_filepath.stem`, as path components rooted at the
`raw_responses` output tree. -/
def rawPath (p : RelPath) : List String :=
  "raw_responses" :: (p.parent ++ [p.stem ++ ".txt"])

/-- `gen_path = batch_config.generated_dir / relative_path.parent /
f"{filename}.json"`, rooted at the `generated_texts` output tree. -/
def genPath (p : RelPath) : List String :=
  "generated_texts" :: (p.parent ++ [p.stem ++ ".json"])

/-- `message.content` of a chat-completion choice (`Optional[str]`). -/
structure Message where
  content : Option String
deriving DecidableEq

/-- One element of `response.choices`. -/
structure Choice where
  message : Message
deriving DecidableEq

/-- The response returned by `client.query`: its choices and what
`str(response)` prints (the text written to the raw file). -/
structure ChatCompletion where
  choices : List Choice
  rawStr : String
deriving DecidableEq

/-- `response.choices[0].message.content`.  (On an empty `choices` list the
Python expression raises; the theorems below only use responses with at
least one choice.) -/
def ChatCompletion.firstContent (r : ChatCompletion) : Option String :=
  match r.choices with
  | [] => none
  | c :: _ => c.message.content

/-- A file system: write events, most recent first.  A lookup returns the
most recent write, so `open(path, "w")` overwrite semantics hold. -/
abbrev FS := List (List String × String)

/-- `open(path, "w"); write(content)`: replaces any previous content. -/
def writeFile (fs : FS) (p : List String) (c : String) : FS := (p, c) :: fs

/-- Read the current content of a file, if any write has happened. -/
def readFs : FS → List String → Option String
  | [], _ => none
  | (q, c) :: rest, p => if q = p then some c else readFs rest p

/-- Python `str.strip()` with no argument: remove leading and trailing
whitespace characters.  (`content.strip()` is falsy exactly when this
returns the empty string.) -/
def pyStrip (s : String) : String :=
  String.mk
    (((s.data.dropWhile Char.isWhitespace).reverse.dropWhile
        Char.isWhitespace).reverse)

/-- The per-item outcome recorded in the worker log. -/
inductive Outcome
  | empty
  | inferenceError (msg : String)
  | processed
  | noOutputProduced
deriving DecidableEq

/-- The observable effects of one `process_file` call: outcome, the log
line appended to the worker's log, whether `RATE_LIMITER.acquire` and
`client.query` ran, and the resulting output file system. -/
structure ProcResult where
  outcome : Outcome
  logLine : String
  acquiredSlot : Bool
  calledExternal : Bool
  fs : FS
deriving DecidableEq

/-- `process_file` on one item: reads `content`; blank content is logged
`[EMPTY]` and skipped before any path setup, rate-limiter acquire or
external call; otherwise the limiter is acquired and `client.query` runs
(its result passed in as `queryResult`); a failure is logged `[ERROR]` and
the item abandoned; on success the raw response is written, then the
generated text is written and `[PROCESSED]` logged when it is truthy
(present and non-empty), else `[GEN_NONE]` is logged. -/
def process_file (fs : FS) (item : RelPath) (content : String)
    (queryResult : Except String ChatCompletion) : ProcResult :=
  if pyStrip content = "" then
    { outcome := .empty
      logLine := "[EMPTY] " ++ item.display
      acquiredSlot := false
      calledExternal := false
      fs := fs }
  else
    match queryResult with
    | .error e =>
      { outcome := .inferenceError e
        logLine := "[ERROR] " ++ item.display ++ ": " ++ e
        acquiredSlot := true
        calledExternal := true
        fs := fs }
    | .ok response =>
      let fs1 := writeFile fs (rawPath item) response.rawStr
      match response.firstContent with
      | some t =>
        if t = "" then
          { outcome := .noOutputProduced
            logLine := "[GEN_NONE] " ++ item.display
            acquiredSlot := true
            calledExternal := true
            fs := fs1 }
        else
          { outcome := .processed
            logLine := "[PROCESSED] " ++ item.display
            acquiredSlot := true
            calledExternal := true
            fs := writeFile fs1 (genPath item) t }
      | none =>
        { outcome := .noOutputProduced
          logLine := "[GEN_NONE] " ++ item.display
          acquiredSlot := true
          calledExternal := true
          fs := fs1 }

theorem readFs_writeFile (fs : FS) (a p : List String) (c : String) :
    readFs (writeFile fs a c) p = if a = p then some c else readFs fs p := rfl

theorem rawPath_ne_genPath (i j : RelPath) : rawPath i ≠ genPath j := by
  intro h
  have h2 := congrArg List.head? h
  simp [rawPath, genPath] at h2

theorem process_file_ok_raw (fs : FS) (item : RelPath) (content : String)
    (response : ChatCompletion) (h : pyStrip content ≠ "") :
    readFs (process_file fs item content (Except.ok response)).fs
      (rawPath item) = some response.rawStr := by
  cases hfc : response.firstContent with
  | none => simp [process_file, h, hfc, writeFile, readFs]
  | some t =>
    by_cases ht : t = ""
    · simp [process_file, h, hfc, ht, writeFile, readFs]
    · simp [process_file, h, hfc, ht, writeFile, readFs,
        (rawPath_ne_genPath item item).symm]

theorem process_file_error_fs (fs : FS) (item : RelPath) (content : String)
    (e : String) (h : pyStrip content ≠ "") :
    (process_file fs item content (Except.error e)).fs = fs := by
  simp [process_file, h]

/-- C3 counterexample: an item whose external call raises reaches the call
(`calledExternal = true`) yet leaves no record under the raw-responses
tree, contradicting "exactly one record ... whether the call succeeded or
raised a failure". -/
theorem errored_item_leaves_no_raw_record :
    (process_file [] (RelPath.mk [] "sample" ".rs") "hello"
        (Except.error "boom")).calledExternal = true ∧
    readFs (process_file [] (RelPath.mk [] "sample" ".rs") "hello"
        (Except.error "boom")).fs
      (rawPath (RelPath.mk [] "sample" ".rs")) = none := by
  constructor <;> rfl

/-- C3 (amended): every item whose external call succeeds has exactly one
raw-responses record at its input-relative path; an item whose call raises
leaves the output file system unchanged, hence no raw record. -/
theorem raw_record_exactly_on_success (fs : FS) (item : RelPath)
    (content : String) (response : ChatCompletion) (e : String)
    (h : pyStrip content ≠ "") :
    readFs (process_file fs item content (Except.ok response)).fs
      (rawPath item) = some response.rawStr ∧
    (process_file fs item content (Except.error e)).fs = fs :=
  ⟨process_file_ok_raw fs item content response h,
   process_file_error_fs fs item content e h⟩

/-- Witness for C3 (amended) at a concrete non-blank item. -/
theorem raw_record_exactly_on_success_witness :
    readFs (process_file [] (RelPath.mk [] "sample" ".rs") "hello"
        (Except.ok (ChatCompletion.mk [Choice.mk (Message.mk (some "out"))] "RAW"))).fs
      (rawPath (RelPath.mk [] "sample" ".rs")) = some "RAW" ∧
    (process_file [] (RelPath.mk [] "sample" ".rs") "hello"
        (Except.error "boom")).fs = [] :=
  raw_record_exactly_on_success [] (RelPath.mk [] "sample" ".rs") "hello"
    (ChatCompletion.mk [Choice.mk (Message.mk (some "out"))] "RAW") "boom"
    (by decide)

/-- C7: blank or whitespace-only content is recorded as `Empty` with an
`[EMPTY]` log line naming the relative path, makes no external call,
consumes no rate-limiter slot, and leaves the file system unchanged. -/
theorem empty_content_skipped (fs : FS) (item : RelPath) (content : String)
    (q : Except String ChatCompletion) (h : pyStrip content = "") :
    process_file fs item content q =
      { outcome := .empty
        logLine := "[EMPTY] " ++ item.display
        acquiredSlot := false
        calledExternal := false
        fs := fs } := by
  unfold process_file
  rw [if_pos h]

/-- Witness for C7 at whitespace-only content. -/
theorem empty_content_skipped_witness :
    process_file [] (RelPath.mk [] "empty" ".txt") "  \n "
        (Except.error "unused") =
      { outcome := .empty
        logLine := "[EMPTY] " ++ (RelPath.mk [] "empty" ".txt").display
        acquiredSlot := false
        calledExternal := false
        fs := [] } :=
  empty_content_skipped [] (RelPath.mk [] "empty" ".txt") "  \n "
    (Except.error "unused") (by decide)

/-- C8: on a successful call the raw response is persisted unconditionally;
when the extracted text is present and non-empty it is written to the
generated path and `[PROCESSED]` logged, otherwise `[GEN_NONE]` is logged
and the generated path is untouched. -/
theorem success_output_spec (fs : FS) (item : RelPath) (content : String)
    (response : ChatCompletion) (h : pyStrip content ≠ "")
    (hc : response.choices ≠ []) :
    readFs (process_file fs item content (Except.ok response)).fs
      (rawPath item) = some response.rawStr ∧
    (∀ t, response.firstContent = some t → t ≠ "" →
      readFs (process_file fs item content (Except.ok response)).fs
          (genPath item) = some t ∧
      (process_file fs item content (Except.ok response)).outcome = .processed ∧
      (process_file fs item content (Except.ok response)).logLine =
        "[PROCESSED] " ++ item.display) ∧
    ((response.firstContent = none ∨ response.firstContent = some "") →
      (process_file fs item content (Except.ok response)).outcome =
        .noOutputProduced ∧
      (process_file fs item content (Except.ok response)).logLine =
        "[GEN_NONE] " ++ item.display ∧
      readFs (process_file fs item content (Except.ok response)).fs
        (genPath item) = readFs fs (genPath item)) := by
  refine ⟨?_, ?_, ?_⟩
  · exact process_file_ok_raw fs item content response h
  · intro t hfc ht
    simp [process_file, h, hfc, ht, writeFile, readFs]
  · intro hfc
    rcases hfc with hfc | hfc <;>
      simp [process_file, h, hfc, writeFile, readFs,
        rawPath_ne_genPath item item]

/-- Witness for C8 at a concrete successful response with text "out". -/
theorem success_output_spec_witness :
    readFs (process_file [] (RelPath.mk [] "a" ".rs") "hi"
        (Except.ok (ChatCompletion.mk [Choice.mk (Message.mk (some "out"))] "RAW"))).fs
      (rawPath (RelPath.mk [] "a" ".rs")) = some "RAW" ∧
    readFs (process_file [] (RelPath.mk [] "a" ".rs") "hi"
        (Except.ok (ChatCompletion.mk [Choice.mk (Message.mk (some "out"))] "RAW"))).fs
      (genPath (RelPath.mk [] "a" ".rs")) = some "out" :=
  ⟨(success_output_spec [] (RelPath.mk [] "a" ".rs") "hi"
      (ChatCompletion.mk [Choice.mk (Message.mk (some "out"))] "RAW")
      (by decide) (by decide)).1,
   ((success_output_spec [] (RelPath.mk [] "a" ".rs") "hi"
      (ChatCompletion.mk [Choice.mk (Message.mk (some "out"))] "RAW")
      (by decide) (by decide)).2.1 "out" rfl (by decide)).1⟩

/-- C9: re-running `process_file` on the same item with the same content
and the same response leaves every file observably unchanged: the writes
open with mode "w" and so replace, rather than append to, previous
contents. -/
theorem process_file_idempotent (fs : FS) (item : RelPath) (content : String)
    (q : Except String ChatCompletion) (p : List String) :
    readFs (process_file (process_file fs item content q).fs
        item content q).fs p =
    readFs (process_file fs item content q).fs p := by
  by_cases h : pyStrip content = ""
  · simp [process_file, h]
  · cases q with
    | error e => simp [process_file, h]
    | ok response =>
      cases hfc : response.firstContent with
      | none =>
        simp only [process_file, h, hfc, if_neg, if_false, writeFile, readFs]
        by_cases hp : rawPath item = p <;> simp [h, hp]
      | some t =>
        by_cases ht : t = ""
        · simp only [process_file, h, hfc, ht, writeFile, readFs]
          by_cases hp : rawPath item = p <;> simp [h, hp]
        · simp only [process_file, h, hfc, writeFile, readFs]
          by_cases hg : genPath item = p <;>
            by_cases hp : rawPath item = p <;>
              simp [readFs, h, ht, hg, hp]

/-- C10: two input files in the same directory whose names differ only in
extension share the same raw and generated output paths, and the
later-processed one silently overwrites the raw record of the first. -/
theorem extension_collision (parent : List String) (stem ext1 ext2 : String)
    (fs : FS) (c1 c2 : String) (r1 r2 : ChatCompletion)
    (h1 : pyStrip c1 ≠ "") (h2 : pyStrip c2 ≠ "") :
    rawPath (RelPath.mk parent stem ext1) = rawPath (RelPath.mk parent stem ext2) ∧
    genPath (RelPath.mk parent stem ext1) = genPath (RelPath.mk parent stem ext2) ∧
    readFs (process_file
        (process_file fs (RelPath.mk parent stem ext1) c1 (Except.ok r1)).fs
        (RelPath.mk parent stem ext2) c2 (Except.ok r2)).fs
      (rawPath (RelPath.mk parent stem ext1)) = some r2.rawStr := by
  refine ⟨rfl, rfl, ?_⟩
  exact process_file_ok_raw
    (process_file fs (RelPath.mk parent stem ext1) c1 (Except.ok r1)).fs
    (RelPath.mk parent stem ext2) c2 r2 h2

/-- Witness for C10: `lib.rs` and `lib.txt` in the same directory collide;
processing the second overwrites the first's raw record. -/
theorem extension_collision_witness :
    rawPath (RelPath.mk ["dir"] "lib" ".rs") =
      rawPath (RelPath.mk ["dir"] "lib" ".txt") ∧
    genPath (RelPath.mk ["dir"] "lib" ".rs") =
      genPath (RelPath.mk ["dir"] "lib" ".txt") ∧
    readFs (process_file
        (process_file [] (RelPath.mk ["dir"] "lib" ".rs") "one"
          (Except.ok (ChatCompletion.mk [Choice.mk (Message.mk (some "g1"))] "R1"))).fs
        (RelPath.mk ["dir"] "lib" ".txt") "two"
        (Except.ok (ChatCompletion.mk [Choice.mk (Message.mk (some "g2"))] "R2"))).fs
      (rawPath (RelPath.mk ["dir"] "lib" ".rs")) = some "R2" :=
  extension_collision ["dir"] "lib" ".rs" ".txt" [] "one" "two"
    (ChatCompletion.mk [Choice.mk (Message.mk (some "g1"))] "R1")
    (ChatCompletion.mk [Choice.mk (Message.mk (some "g2"))] "R2")
    (by decide) (by decide)

/-- `fnmatch`-style matching of a name pattern (literal characters and
`*`, the only constructs the repository's patterns use) against a file
name, both as character lists: `*` matches any (possibly empty) character
sequence, so `'*' :: ps` matches `cs` iff `ps` matches some suffix of
`cs`. -/
def fnmatchChars : List Char → List Char → Bool
  | [], cs => cs.isEmpty
  | '*' :: ps, cs => (cs.tails).any (fun suffix => fnmatchChars ps suffix)
  | _ :: _, [] => false
  | p :: ps, c :: cs => p == c && fnmatchChars ps cs

/-- `pathlib.Path.glob` semantics for the pattern shapes `run_batch` uses:
a pattern of the form `**/<name-pattern>` matches a relative file path at
any directory depth (including zero) whose file name fnmatches
`<name-pattern>`; any other pattern matches only files directly under the
root whose name fnmatches the whole pattern. -/
def globMatches (pattern : String) (p : RelPath) : Bool :=
  match pattern.data with
  | '*' :: '*' :: '/' :: namePat => fnmatchChars namePat p.fileName.data
  | other => decide (p.parent = []) && fnmatchChars other p.fileName.data

/-- Default `file_pattern` argument of `run_batch` (and of the CLI). -/
def run_batch_file_pattern_default : String := "**/*.rs"

/-- Default `num_workers` argument of `run_batch`. -/
def run_batch_num_workers_default : Int := 1

/-- Default `max_rpm` argument of `run_batch` (`DEFAULT_MAX_RPM`). -/
def run_batch_max_rpm_default : Int := DEFAULT_MAX_RPM

theorem fnmatch_star_append (ps ys : List Char) (h : fnmatchChars ps ys = true)
    (xs : List Char) : fnmatchChars ('*' :: ps) (xs ++ ys) = true := by
  have harm : fnmatchChars ('*' :: ps) (xs ++ ys) =
      ((xs ++ ys).tails).any (fun suffix => fnmatchChars ps suffix) := by
    simp only [fnmatchChars]
  rw [harm, List.any_eq_true]
  exact ⟨ys, (List.mem_tails ys (xs ++ ys)).mpr (List.suffix_append xs ys), h⟩

/-- The effects of `run_batch` that precede any worker activity, as a
function of the matched file list: the pre-run summary, the zero-file
early return (before the manifest write), the `files_found.txt` manifest
write, and the hand-off of each file to `process_file` through the pool. -/
structure RunBatchResult where
  reportedZeroWork : Bool
  manifestWrite : Option (List String)
  poolStarted : Bool
  processFileCalls : List String
  raisedError : Bool
deriving DecidableEq

/-- `run_batch` control flow over the matched files: when no file matches
it prints "No files to process." and returns before `files_found.txt` is
written and before the pool is created; otherwise it writes the manifest
and maps `process_file` over the files. -/
def run_batch (files : List String) : RunBatchResult :=
  let total_files := files.length
  if total_files = 0 then
    { reportedZeroWork := true
      manifestWrite := none
      poolStarted := false
      processFileCalls := []
      raisedError := false }
  else
    { reportedZeroWork := false
      manifestWrite := some files
      poolStarted := true
      processFileCalls := files
      raisedError := false }

/-- C4 counterexample: the default file pattern is `**/*.rs`, which fails
to match the file `notes.txt` under the input root, so it does not match
all files under the root. -/
theorem default_pattern_misses_txt_file :
    run_batch_file_pattern_default = "**/*.rs" ∧
    globMatches run_batch_file_pattern_default
      (RelPath.mk [] "notes" ".txt") = false := by
  constructor
  · rfl
  · decide

/-- C4 (amended): the omitted-option defaults are file pattern `**/*.rs`
(matching exactly the `.rs` files under the root, at any depth — not all
files), worker count `1` and `300` maximum requests per minute. -/
theorem run_batch_defaults (parent : List String) (stem : String) :
    run_batch_file_pattern_default = "**/*.rs" ∧
    run_batch_num_workers_default = 1 ∧
    run_batch_max_rpm_default = 300 ∧
    globMatches run_batch_file_pattern_default
      (RelPath.mk parent stem ".rs") = true ∧
    globMatches run_batch_file_pattern_default
      (RelPath.mk [] "notes" ".txt") = false := by
  refine ⟨rfl, rfl, rfl, ?_, by decide⟩
  show fnmatchChars ['*', '.', 'r', 's']
    (RelPath.fileName (RelPath.mk parent stem ".rs")).data = true
  have hdata : (RelPath.fileName (RelPath.mk parent stem ".rs")).data =
      stem.data ++ ['.', 'r', 's'] := by
    show (stem ++ ".rs").data = stem.data ++ ['.', 'r', 's']
    rw [String.data_append]
  rw [hdata]
  exact fnmatch_star_append ['.', 'r', 's'] ['.', 'r', 's'] (by decide) stem.data

/-- C5 counterexample: with zero matched files `run_batch` returns before
the manifest write, so no `files_found.txt` is written at all — in
particular not an empty one. -/
theorem zero_files_writes_no_manifest :
    (run_batch []).manifestWrite ≠ some [] := by decide

/-- C5 (amended): a run that matches zero files reports zero work and
exits cleanly; the pool is never started, so `process_file` never runs
and no per-worker log is created; and no manifest file is written (the
early return precedes the `files_found.txt` write). -/
theorem run_batch_zero_files :
    run_batch [] =
      { reportedZeroWork := true
        manifestWrite := none
        poolStarted := false
        processFileCalls := []
        raisedError := false } := rfl

/-- C6 counterexample: constructing a `RateLimiter` with the non-positive
rate `-5` is not rejected — construction succeeds, with a negative
interval. -/
theorem negative_rpm_accepted :
    RateLimiter.init (-5) =
      Except.ok (RateLimiter.mk (-5) (-12) 0) := by
  rw [RateLimiter.init, if_neg (by norm_num : (-5 : Int) ≠ 0)]
  simp only [Except.ok.injEq, RateLimiter.mk.injEq]
  norm_num

/-- C6 (amended): a zero rate fails at construction time (Python's
`60.0 / max_rpm` raises `ZeroDivisionError`), but a negative rate is
accepted without any validation, producing a limiter whose interval is
negative. -/
theorem init_validation (m : Int) (hm : m < 0) :
    RateLimiter.init 0 =
      Except.error "ZeroDivisionError: float division by zero" ∧
    ∃ rl, RateLimiter.init m = Except.ok rl ∧ rl.interval < 0 := by
  refine ⟨rfl, ⟨RateLimiter.mk m (60 / (m : ℚ)) 0, ?_, ?_⟩⟩
  · rw [RateLimiter.init, if_neg (ne_of_lt hm)]
  · have hmq : (m : ℚ) < 0 := by exact_mod_cast hm
    exact div_neg_of_pos_of_neg (by norm_num) hmq

/-- Witness for C6 (amended) at rate `-5`. -/
theorem init_validation_witness :
    RateLimiter.init 0 =
      Except.error "ZeroDivisionError: float division by zero" ∧
    ∃ rl, RateLimiter.init (-5) = Except.ok rl ∧ rl.interval < 0 :=
  init_validation (-5) (by norm_num)

end BatchProcessor
